import Mathlib

/-!
# Contiki-IDS network mapper (apps/ids/mapper.c)

A shallow embedding of the mapper process: the node registry (`find_node`,
`add_node`), the report handler (`tcpip_handler`), the sweep scheduler
(`map_network` and the slow-timer branch of the process thread) and the
diagnostic printer (`print_subtree`).

Modelling conventions.

* An address (`uip_ipaddr_t`) is the list of its bytes. `uip_ipaddr_cmp` is
  byte-for-byte equality.
* A `struct Node *` is the index of the record in `network`. The model keeps
  the records `network[0 .. node_index)`; the slots at and above `node_index`
  are all-zero (the `memset` at startup) and are first written by `add_node`,
  so `node_index` is the length of the list and a fresh record has no parent
  and no children.
* `children` together with the counter `child` is a list: `child` is its
  length. The C array has `NETWORK_NODES/4` slots; a store at an index at or
  above that lies outside the array. The model lets the list grow, so that
  such a store is visible as a length above `NETWORK_NODES/4`.
* `network[i].id` is a pointer into the routing table (or to the node's own
  global address). The routing table, the instance table and the global
  address are fixed for a run (`Env`), so the pointee is stored by value.
* Constants that come from headers outside this file (`NETWORK_NODES`,
  `UIP_DS6_ROUTE_NB`, `RPL_MAX_INSTANCES`, `RPL_MAX_DAG_PER_INSTANCE`) are
  fields of `Env`.
* Console output is not part of the state. Timers are not modelled: whether
  `etimer_expired(&map_timer)` holds is an input of each event.
-/

namespace Mapper

/-- An IPv6 address as the list of its bytes (`uip_ipaddr_t`). -/
abbrev Address := List Nat

/-- Modelled from the spec: `ADDR_LEN`, the constant length of an address, is
`sizeof(uip_ipaddr_t)`; the type is declared in `net/uip.h`, outside the
sources, and is the 16-byte IPv6 address. -/
def ADDR_LEN : Nat := 16

/-- The comparison `uip_ipaddr_cmp(a, b)`: byte-for-byte equality. -/
def uip_ipaddr_cmp (a b : Address) : Bool := decide (a = b)

/-- The record `struct Node`: `id`, `parent`, and `children[0 .. child)`. -/
structure Node where
  id : Address
  parent : Option Nat
  children : List Nat
deriving DecidableEq

/-- One slot of `uip_ds6_routing_table`. -/
structure RouteEntry where
  isused : Bool
  ipaddr : Address

/-- One slot of an instance's `dag_table`. -/
structure Dag where
  used : Bool
  dag_id : Address

/-- One slot of `instance_table`. -/
structure Instance where
  used : Bool
  instance_id : Nat
  dag_table : Nat → Dag

/-- The read-only collaborators and the compile-time constants. The tables are
functions on every index: an index at or above the table size stands for the
memory that lies behind the array. -/
structure Env where
  NETWORK_NODES : Nat
  UIP_DS6_ROUTE_NB : Nat
  RPL_MAX_INSTANCES : Nat
  RPL_MAX_DAG_PER_INSTANCE : Nat
  uip_ds6_routing_table : Nat → RouteEntry
  instance_table : Nat → Instance
  global_addr : Address

/-- The file-level variables of mapper.c. -/
structure State where
  network : List Node
  working_host : Nat
  current_rpl_instance_id : Nat
  current_dag_id : Address
  mapper_instance : Nat
  mapper_dag : Nat
deriving DecidableEq

/-- The variable `node_index`: the number of records in use. -/
def node_index (s : State) : Nat := s.network.length

/-- The record behind a node pointer; an index outside the registry reads as a
zeroed slot. -/
def nodeAt (net : List Node) (i : Nat) : Node :=
  net.getD i { id := [], parent := none, children := [] }

/-- The loop of `find_node`, started at index `i` on the remaining records. -/
def find_node_from (ip : Address) : List Node → Nat → Option Nat
  | [], _ => none
  | n :: rest, i =>
    if uip_ipaddr_cmp ip n.id then some i else find_node_from ip rest (i + 1)

/-- The function `find_node`: the index of the first record whose address
equals `ip`, or `none` for NULL. -/
def find_node (s : State) (ip : Address) : Option Nat :=
  find_node_from ip s.network 0

/-- The function `add_node`: the capacity test comes first, then the lookup,
then the append. Returns the node pointer (or `none` for NULL) and the new
state. -/
def add_node (NETWORK_NODES : Nat) (s : State) (ip : Address) : Option Nat × State :=
  if (node_index s : Int) ≥ (NETWORK_NODES : Int) - 1 then (none, s)
  else
    match find_node s ip with
    | some node => (some node, s)
    | none =>
      (some (node_index s),
        { s with network := s.network ++ [{ id := ip, parent := none, children := [] }] })

/-- One line of console output of the printer: the indentation and either an
address or the truncation marker. -/
inductive Line where
  | addr (indent : Nat) (id : Address)
  | dots (indent : Nat)
deriving DecidableEq

/-- The recursion of `print_subtree`; `fuel` bounds the nesting of calls and
is only there to make the recursion structural. -/
def print_subtree_aux (net : List Node) : Nat → Nat → Nat → List Line
  | 0, _, _ => []
  | fuel + 1, node, depth =>
    if depth > 8 then [Line.dots (depth * 2)]
    else
      Line.addr (depth * 2) (nodeAt net node).id ::
        (nodeAt net node).children.flatMap
          (fun c => print_subtree_aux net fuel c (depth + 1))

/-- The function `print_subtree`: a call at depth 9 or more returns at once,
so a call at `depth` nests at most `9 - depth` further calls. -/
def print_subtree (net : List Node) (node depth : Nat) : List Line :=
  print_subtree_aux net (9 - depth + 1) node depth

/-- The function `print_graph`, without its header and footer lines. -/
def print_graph (s : State) : List Line := print_subtree s.network 0 0

/-- What the handler sees of an arrived datagram: `uip_newdata()`, the bytes at
`uip_appdata` (the receive buffer, at every offset), and `uip_datalen()`. -/
structure Datagram where
  newdata : Bool
  appdata : Nat → Nat
  datalen : Nat

/-- The call `memcpy(&ip, appdata + off, sizeof(ip))`. -/
def memcpy_addr (appdata : Nat → Nat) (off : Nat) : Address :=
  (List.range ADDR_LEN).map (fun i => appdata (off + i))

/-- The assignment `ip.u16[0] = 0xaaaa`: both leading bytes become 0xaa. -/
def set_u16_0 (ip : Address) : Address := 0xaa :: 0xaa :: ip.drop 2

/-- The duplicate loop of `tcpip_handler`: some child of `parent` has the
address of `id`. -/
def child_listed (net : List Node) (parent id : Nat) : Bool :=
  (nodeAt net parent).children.any
    (fun c => uip_ipaddr_cmp (nodeAt net c).id (nodeAt net id).id)

/-- The assignment `id->parent = parent`. -/
def set_parent (net : List Node) (id parent : Nat) : List Node :=
  net.set id { nodeAt net id with parent := some parent }

/-- The assignment `parent->children[parent->child++] = id`. -/
def push_child (net : List Node) (parent id : Nat) : List Node :=
  net.set parent
    { nodeAt net parent with children := (nodeAt net parent).children ++ [id] }

/-- The index that `parent->children[parent->child++] = id` stores to lies
inside the array `children[NETWORK_NODES/4]`. -/
def child_store_in_bounds (NETWORK_NODES : Nat) (net : List Node) (parent : Nat) : Bool :=
  decide ((nodeAt net parent).children.length < NETWORK_NODES / 4)

/-- The local `src_ip` of `tcpip_handler`: the 16 bytes at offset 0 of the
application data, with `u16[0]` overwritten by 0xaaaa. -/
def src_ip (d : Datagram) : Address := set_u16_0 (memcpy_addr d.appdata 0)

/-- The local `parent_ip` of `tcpip_handler`: the 16 bytes at offset
`sizeof(uint8_t) + 2*sizeof(uip_ipaddr_t)`, with `u16[0]` overwritten by 0xaaaa. -/
def parent_ip (d : Datagram) : Address :=
  set_u16_0 (memcpy_addr d.appdata (1 + 2 * ADDR_LEN))

/-- The function `tcpip_handler`. It never reads `uip_datalen()`. -/
def tcpip_handler (s : State) (d : Datagram) : State :=
  if d.newdata = false then s
  else
    match find_node s (src_ip d) with
    | none => s
    | some id =>
      match find_node s (parent_ip d) with
      | none => s
      | some parent =>
        if child_listed s.network parent id then s
        else { s with network := push_child (set_parent s.network id parent) parent id }

/-- A probe datagram handed to `uip_udp_packet_sendto`. -/
structure Probe where
  dest : Address
  data : List Nat
deriving DecidableEq

/-- The outward effects of one event: the probe sent, if any, and whether
`etimer_reset(&map_timer)` was called. -/
structure Output where
  probe : Option Probe
  map_timer_reset : Bool
deriving DecidableEq

/-- The skipping loop at the head of `map_network`; `fuel` is the number of
slots left before the end of the table. -/
def skip_unused (env : Env) : Nat → Nat → Nat
  | 0, wh => wh
  | fuel + 1, wh =>
    if wh < env.UIP_DS6_ROUTE_NB ∧ (env.uip_ds6_routing_table wh).isused = false then
      skip_unused env fuel (wh + 1)
    else wh

/-- The function `map_network`. -/
def map_network (env : Env) (s : State) : State × Output :=
  let wh := skip_unused env (env.UIP_DS6_ROUTE_NB - s.working_host) s.working_host
  if (env.uip_ds6_routing_table wh).isused = false then
    ({ s with working_host := wh + 1 }, { probe := none, map_timer_reset := false })
  else
    let data := s.current_rpl_instance_id :: s.current_dag_id
    let s1 := (add_node env.NETWORK_NODES { s with working_host := wh }
      (env.uip_ds6_routing_table wh).ipaddr).2
    let probe : Probe := { dest := (env.uip_ds6_routing_table wh).ipaddr, data := data }
    if ((wh + 1 : Nat) : Int) ≥ (env.UIP_DS6_ROUTE_NB : Int) - 1 then
      ({ s1 with working_host := 0 }, { probe := some probe, map_timer_reset := true })
    else
      ({ s1 with working_host := wh + 1 }, { probe := some probe, map_timer_reset := false })

/-- The inner loop over `mapper_dag` for the instance `inst`: the flag tells
whether a used DAG was found (the `goto`), the number is `mapper_dag` on exit. -/
def dag_loop (env : Env) (inst : Nat) : Nat → Nat → Bool × Nat
  | 0, d => (false, d)
  | fuel + 1, d =>
    if d < env.RPL_MAX_DAG_PER_INSTANCE then
      if ((env.instance_table inst).dag_table d).used = false then
        dag_loop env inst fuel (d + 1)
      else (true, d)
    else (false, d)

/-- The outer loop over `mapper_instance`: the flag tells whether the `goto`
was taken, the numbers are `mapper_instance` and `mapper_dag` on exit. -/
def instance_loop (env : Env) : Nat → Nat → Nat → Bool × Nat × Nat
  | 0, i, d => (false, i, d)
  | fuel + 1, i, d =>
    if i < env.RPL_MAX_INSTANCES then
      if (env.instance_table i).used = false then instance_loop env fuel (i + 1) d
      else
        match dag_loop env i (env.RPL_MAX_DAG_PER_INSTANCE - d) d with
        | (true, d1) => (true, i, d1)
        | (false, d1) =>
          instance_loop env fuel (i + 1)
            (if (d1 : Int) ≥ (env.RPL_MAX_DAG_PER_INSTANCE : Int) - 1 then 0 else d1)
    else (false, i, d)

/-- The body of `if (working_host == 0)` in the process thread: the search
for the next used instance/DAG pair. -/
def select_network (env : Env) (s : State) : State :=
  match instance_loop env (env.RPL_MAX_INSTANCES - s.mapper_instance)
      s.mapper_instance s.mapper_dag with
  | (true, i, d) =>
    { s with
      mapper_instance := i
      mapper_dag := d
      current_rpl_instance_id := (env.instance_table i).instance_id
      current_dag_id := ((env.instance_table i).dag_table d).dag_id }
  | (false, i, d) =>
    { s with
      mapper_instance := if (i : Int) ≥ (env.RPL_MAX_INSTANCES : Int) - 1 then 0 else i
      mapper_dag := d }

/-- The branch `else if (etimer_expired(&map_timer))` of the process thread. -/
def slow_tick (env : Env) (s : State) : State × Output :=
  map_network env (if s.working_host = 0 then select_network env s else s)

/-- An event that resumes the process: a `tcpip_event` with its datagram, or
any other event together with the value of `etimer_expired(&map_timer)`. -/
inductive Event where
  | tcpip (d : Datagram)
  | other (map_timer_expired : Bool)

/-- One turn of the `while(1)` loop of the process thread. -/
def mapper_step (env : Env) (s : State) : Event → State × Output
  | Event.tcpip d => (tcpip_handler s d, { probe := none, map_timer_reset := false })
  | Event.other true => slow_tick env s
  | Event.other false => (s, { probe := none, map_timer_reset := false })

/-- The state when the process first yields: zeroed statics, and the root
record seeded with the node's global address. -/
def mapper_init (env : Env) : State :=
  { network := [{ id := env.global_addr, parent := none, children := [] }]
    working_host := 0
    current_rpl_instance_id := 0
    current_dag_id := List.replicate ADDR_LEN 0
    mapper_instance := 0
    mapper_dag := 0 }

/-- The state after a sequence of events. -/
def run (env : Env) (s : State) : List Event → State
  | [] => s
  | ev :: evs => run env (mapper_step env s ev).1 evs

/-- The probes sent during a sequence of events, in order. -/
def probes (env : Env) (s : State) : List Event → List Probe
  | [] => []
  | ev :: evs =>
    (mapper_step env s ev).2.probe.toList ++ probes env (mapper_step env s ev).1 evs

/-- A report datagram of `1 + 3 * ADDR_LEN` bytes: the source address at
offset 0, zero gap bytes, the parent address at offset `1 + 2 * ADDR_LEN`. -/
def report (src parent : Address) : Datagram :=
  { newdata := true
    appdata := fun i =>
      if i < ADDR_LEN then src.getD i 0
      else if 1 + 2 * ADDR_LEN ≤ i ∧ i < 1 + 3 * ADDR_LEN then
        parent.getD (i - (1 + 2 * ADDR_LEN)) 0
      else 0
    datalen := 1 + 3 * ADDR_LEN }

/-- The global-scope address aaaa::k. -/
def gaddr (k : Nat) : Address := [0xaa, 0xaa, 0, 0, 0, 0, 0, 0, 0, 0, 0, 0, 0, 0, 0, k]

/-- A routing table holding the given addresses in its first slots, all in
use, and unused zero slots everywhere else. -/
def table_of (l : List Address) : Nat → RouteEntry :=
  fun i =>
    match l.get? i with
    | some a => { isused := true, ipaddr := a }
    | none => { isused := false, ipaddr := List.replicate ADDR_LEN 0 }

/-- An instance table with no instance in use. -/
def no_instances : Nat → Instance :=
  fun _ =>
    { used := false
      instance_id := 0
      dag_table := fun _ => { used := false, dag_id := List.replicate ADDR_LEN 0 } }

/-- A small configuration: the constants `NETWORK_NODES` and
`UIP_DS6_ROUTE_NB`, the root aaaa::1, and the given routing entries. -/
def demo_env (nodes routes : Nat) (l : List Address) : Env :=
  { NETWORK_NODES := nodes
    UIP_DS6_ROUTE_NB := routes
    RPL_MAX_INSTANCES := 1
    RPL_MAX_DAG_PER_INSTANCE := 2
    uip_ds6_routing_table := table_of l
    instance_table := no_instances
    global_addr := gaddr 1 }

/-- The event of a slow-timer expiry. -/
def slow : Event := Event.other true

/-- A configuration with `NETWORK_NODES = 4` (so `children` has one slot) and
a four-slot routing table holding aaaa::2 and aaaa::3. -/
def env4 : Env := demo_env 4 4 [gaddr 2, gaddr 3]

/-- A configuration with `NETWORK_NODES = 8` and a four-slot routing table
holding aaaa::2 and aaaa::3. -/
def env8 : Env := demo_env 8 4 [gaddr 2, gaddr 3]

/-- The state of `env4` after one slow tick: the root and aaaa::2. -/
def st4_one : State := run env4 (mapper_init env4) [slow]

/-- The state of `env4` after two slow ticks: the root, aaaa::2 and aaaa::3. -/
def st4_two : State := run env4 (mapper_init env4) [slow, slow]

/-- The state of `env4` after two slow ticks and the report of aaaa::2 naming
the root as its parent. -/
def st4_full : State :=
  run env4 (mapper_init env4) [slow, slow, Event.tcpip (report (gaddr 2) (gaddr 1))]

/-- A global-scope address: `ADDR_LEN` bytes, the leading 16 bits being 0xaaaa. -/
@[reducible] def global_scope (a : Address) : Prop :=
  a.length = ADDR_LEN ∧ a.take 2 = [0xaa, 0xaa]

/-- The end-to-end configuration with a routing table of exactly three slots
holding aaaa::2, aaaa::3, aaaa::4, and `NETWORK_NODES = 8`. -/
def env_routes3 : Env := demo_env 8 3 [gaddr 2, gaddr 3, gaddr 4]

/-- The end-to-end configuration with `NETWORK_NODES = 4` and a four-slot
routing table holding aaaa::2, aaaa::3, aaaa::4. -/
def env_nodes4 : Env := demo_env 4 4 [gaddr 2, gaddr 3, gaddr 4]

/-- The end-to-end configuration with `NETWORK_NODES = 5` and a four-slot
routing table holding aaaa::2, aaaa::3, aaaa::4. -/
def env_nodes5 : Env := demo_env 5 4 [gaddr 2, gaddr 3, gaddr 4]

/-- The events of the end-to-end scenario: three slow ticks, the report of
aaaa::2 naming the root, the report of aaaa::3 naming aaaa::2. -/
def scenario : List Event :=
  [slow, slow, slow, Event.tcpip (report (gaddr 2) (gaddr 1)),
    Event.tcpip (report (gaddr 3) (gaddr 2))]

/-- The record `b` is a child of the record `a`: `b` occurs in
`a->children[0 .. a->child)`. -/
def is_child (net : List Node) (a b : Nat) : Prop := b ∈ (nodeAt net a).children

/-- What resumes the process: a datagram, the expiry of the fast timer
`timer`, or the expiry of the slow timer `map_timer`. -/
inductive Wakeup where
  | datagram (d : Datagram)
  | fast_timer
  | slow_timer

/-- The event the process thread sees for a wakeup. The thread does not look
at which timer expired; it evaluates `etimer_expired(&map_timer)`, whose value
at a fast-timer expiry is an input (the timer library is outside the
sources), and which holds at the slow timer's own expiry. -/
def to_event : Wakeup × Bool → Event
  | (Wakeup.datagram d, _) => Event.tcpip d
  | (Wakeup.fast_timer, b) => Event.other b
  | (Wakeup.slow_timer, _) => Event.other true

/-- The wakeup is handled while `etimer_expired(&map_timer)` holds. -/
def takes_branch : Wakeup × Bool → Bool
  | (Wakeup.datagram _, _) => false
  | (Wakeup.fast_timer, b) => b
  | (Wakeup.slow_timer, _) => true

/-- The wakeup is an expiry of the slow timer. -/
def is_slow_expiry : Wakeup × Bool → Bool
  | (Wakeup.slow_timer, _) => true
  | _ => false

/-- A configuration with a routing table of exactly two slots, both in use. -/
def env_routes2 : Env := demo_env 8 2 [gaddr 2, gaddr 3]

/-- An instance table whose only instance (id 30) has two DAGs in use,
aaaa::10 and aaaa::11. -/
def two_dag_instances : Nat → Instance :=
  fun i =>
    { used := decide (i = 0)
      instance_id := 30
      dag_table := fun d =>
        if d = 0 then { used := true, dag_id := gaddr 10 }
        else if d = 1 then { used := true, dag_id := gaddr 11 }
        else { used := false, dag_id := List.replicate ADDR_LEN 0 } }

/-- A configuration with two in-use instance/DAG pairs and a two-slot routing
table holding aaaa::2, so that every slow tick starts a fresh pass. -/
def env_two_dags : Env :=
  { NETWORK_NODES := 8
    UIP_DS6_ROUTE_NB := 2
    RPL_MAX_INSTANCES := 1
    RPL_MAX_DAG_PER_INSTANCE := 2
    uip_ds6_routing_table := table_of [gaddr 2]
    instance_table := two_dag_instances
    global_addr := gaddr 1 }

/-- A graph with a cycle: the root is its own child. -/
def net_selfloop : List Node := [{ id := gaddr 1, parent := some 0, children := [0] }]

/-- A datagram of 60 bytes that agrees with the report of aaaa::3 naming
aaaa::1 on the bytes [2, 16) and [35, 49) only; every other byte is 0x55. -/
def noisy_report : Datagram :=
  { newdata := true
    appdata := fun i =>
      if (2 ≤ i ∧ i < ADDR_LEN) ∨ (1 + 2 * ADDR_LEN + 2 ≤ i ∧ i < 1 + 3 * ADDR_LEN) then
        (report (gaddr 3) (gaddr 1)).appdata i
      else 0x55
    datalen := 60 }

theorem map_id_set (l : List Node) (i : Nat) (n : Node) (h : n.id = (nodeAt l i).id) :
    (l.set i n).map Node.id = l.map Node.id := by
  induction l generalizing i with
  | nil => simp
  | cons a t ih =>
    cases i with
    | zero => simpa [nodeAt] using h
    | succ m =>
      simp only [List.set_cons_succ, List.map_cons, List.cons.injEq, true_and]
      exact ih m (by simpa [nodeAt] using h)

theorem nodeAt_id_of_map_id (l1 l2 : List Node) (h : l1.map Node.id = l2.map Node.id) (i : Nat) :
    (nodeAt l1 i).id = (nodeAt l2 i).id := by
  induction l1 generalizing l2 i with
  | nil =>
    cases l2 with
    | nil => rfl
    | cons b t => simp at h
  | cons a t ih =>
    cases l2 with
    | nil => simp at h
    | cons b t2 =>
      simp only [List.map_cons, List.cons.injEq] at h
      cases i with
      | zero => simpa [nodeAt] using h.1
      | succ m => simpa [nodeAt] using ih t2 h.2 m

/-! ## The report handler -/

theorem set_parent_ids (net : List Node) (id parent : Nat) :
    (set_parent net id parent).map Node.id = net.map Node.id :=
  map_id_set net id _ rfl

theorem push_child_ids (net : List Node) (parent id : Nat) :
    (push_child net parent id).map Node.id = net.map Node.id :=
  map_id_set net parent _ rfl

theorem tcpip_handler_cases (s : State) (d : Datagram) :
    (tcpip_handler s d = s ∧
      (d.newdata = false ∨ find_node s (src_ip d) = none ∨ find_node s (parent_ip d) = none ∨
        ∃ id parent, find_node s (src_ip d) = some id ∧
          find_node s (parent_ip d) = some parent ∧ child_listed s.network parent id = true)) ∨
    ∃ id parent, d.newdata = true ∧ find_node s (src_ip d) = some id ∧
      find_node s (parent_ip d) = some parent ∧ child_listed s.network parent id = false ∧
      tcpip_handler s d =
        { s with network := push_child (set_parent s.network id parent) parent id } := by
  unfold tcpip_handler
  by_cases hn : d.newdata = false
  · simp [hn]
  · cases h1 : find_node s (src_ip d) with
    | none => simp [hn]
    | some id =>
      cases h2 : find_node s (parent_ip d) with
      | none => simp [hn]
      | some parent =>
        by_cases hc : child_listed s.network parent id = true
        · simp [hn, hc]
        · right
          exact ⟨id, parent, by simpa using hn, rfl, rfl, by simpa using hc, by simp [hn, hc]⟩

theorem tcpip_handler_ids (s : State) (d : Datagram) :
    (tcpip_handler s d).network.map Node.id = s.network.map Node.id := by
  rcases tcpip_handler_cases s d with ⟨h, _⟩ | ⟨id, parent, _, _, _, _, h⟩
  · rw [h]
  · rw [h]; simp only [push_child_ids, set_parent_ids]

theorem tcpip_handler_cursor (s : State) (d : Datagram) :
    (tcpip_handler s d).working_host = s.working_host ∧
    (tcpip_handler s d).current_rpl_instance_id = s.current_rpl_instance_id ∧
    (tcpip_handler s d).current_dag_id = s.current_dag_id ∧
    (tcpip_handler s d).mapper_instance = s.mapper_instance ∧
    (tcpip_handler s d).mapper_dag = s.mapper_dag := by
  rcases tcpip_handler_cases s d with ⟨h, _⟩ | ⟨id, parent, _, _, _, _, h⟩
  · rw [h]; simp
  · rw [h]; simp

/-- C1: at the concrete state with `NETWORK_NODES = 4` reached by one slow tick
(root and aaaa::2 registered), `add_node` of the unregistered aaaa::3 succeeds
with record 2 and `node_index` grows by one, yet the call repeated right after
returns NULL: the capacity test precedes the lookup. -/
theorem add_node_repeat_returns_null :
    find_node st4_one (gaddr 3) = none ∧
    (add_node env4.NETWORK_NODES st4_one (gaddr 3)).1 = some 2 ∧
    node_index (add_node env4.NETWORK_NODES st4_one (gaddr 3)).2 = node_index st4_one + 1 ∧
    (add_node env4.NETWORK_NODES (add_node env4.NETWORK_NODES st4_one (gaddr 3)).2 (gaddr 3)).1 =
      none := by
  decide

/-- C2: with `NETWORK_NODES = 4` and three records stored (fewer than
`NETWORK_NODES`), `add_node` of the unregistered aaaa::4 returns NULL and leaves
the state as it was: the last slot of `network` is never handed out. -/
theorem add_node_refuses_last_slot :
    node_index st4_two = 3 ∧ node_index st4_two < env4.NETWORK_NODES ∧
    find_node st4_two (gaddr 4) = none ∧
    add_node env4.NETWORK_NODES st4_two (gaddr 4) = (none, st4_two) := by
  decide

/-- C3: with `NETWORK_NODES = 4` the array `children` has one slot. In the
reachable state where the root already lists aaaa::2, the report of the
registered aaaa::3 naming the root is not refused: the store index is outside
the array, the root's child count becomes 2 and the parent field of aaaa::3 is
written. -/
theorem report_overflows_children :
    (nodeAt st4_full.network 0).children.length = env4.NETWORK_NODES / 4 ∧
    find_node st4_full (src_ip (report (gaddr 3) (gaddr 1))) = some 2 ∧
    find_node st4_full (parent_ip (report (gaddr 3) (gaddr 1))) = some 0 ∧
    child_listed st4_full.network 0 2 = false ∧
    child_store_in_bounds env4.NETWORK_NODES st4_full.network 0 = false ∧
    tcpip_handler st4_full (report (gaddr 3) (gaddr 1)) ≠ st4_full ∧
    (nodeAt st4_full.network 2).parent = none ∧
    (nodeAt (tcpip_handler st4_full (report (gaddr 3) (gaddr 1))).network 2).parent = some 0 ∧
    (nodeAt (tcpip_handler st4_full (report (gaddr 3) (gaddr 1))).network 0).children = [1, 2] ∧
    env4.NETWORK_NODES / 4 <
      (nodeAt (tcpip_handler st4_full (report (gaddr 3) (gaddr 1))).network 0).children.length := by
  decide

/-- C7: for every state and every datagram, `tcpip_handler` leaves `node_index`
and the address of every record unchanged, and it leaves the whole state
unchanged when the normalized source address or the normalized parent address
is not registered. -/
theorem tcpip_handler_frame (s : State) (d : Datagram) :
    node_index (tcpip_handler s d) = node_index s ∧
    (∀ i, (nodeAt (tcpip_handler s d).network i).id = (nodeAt s.network i).id) ∧
    (find_node s (src_ip d) = none ∨ find_node s (parent_ip d) = none →
      tcpip_handler s d = s) := by
  have hids := tcpip_handler_ids s d
  refine ⟨?_, fun i => nodeAt_id_of_map_id _ _ hids i, ?_⟩
  · have := congrArg List.length hids
    simpa [node_index] using this
  · intro h
    rcases tcpip_handler_cases s d with ⟨h0, _⟩ | ⟨id, parent, _, h1, h2, _, _⟩
    · exact h0
    · rcases h with h | h
      · rw [h1] at h; cases h
      · rw [h2] at h; cases h

/-! ## The scheduler and the reachable states -/

theorem add_node_network (N : Nat) (s : State) (ip : Address) :
    (add_node N s ip).2 = s ∨
    (find_node s ip = none ∧
      (add_node N s ip).2 =
        { s with network := s.network ++ [{ id := ip, parent := none, children := [] }] }) := by
  unfold add_node
  split
  · left; rfl
  · cases h : find_node s ip with
    | none => right; exact ⟨rfl, rfl⟩
    | some node => left; rfl

theorem select_network_network (env : Env) (s : State) :
    (select_network env s).network = s.network := by
  unfold select_network
  split <;> rfl

theorem tcpip_handler_attach (s : State) (d : Datagram) (id parent : Nat)
    (hn : d.newdata = true)
    (h1 : find_node s (src_ip d) = some id) (h2 : find_node s (parent_ip d) = some parent)
    (hl : child_listed s.network parent id = false) :
    tcpip_handler s d =
      { s with network := push_child (set_parent s.network id parent) parent id } := by
  simp [tcpip_handler, hn, h1, h2, hl]

theorem memcpy_report_src (e p : Address) (he : e.length = ADDR_LEN) :
    memcpy_addr (report e p).appdata 0 = e := by
  apply List.ext_getElem
  · simp [memcpy_addr, he]
  · intro n h1 h2
    have h3 : n < ADDR_LEN := by simpa [memcpy_addr] using h1
    simp [memcpy_addr, report, h3, List.getD_eq_getElem?_getD, h2]

theorem memcpy_report_parent (e p : Address) (hp : p.length = ADDR_LEN) :
    memcpy_addr (report e p).appdata (1 + 2 * ADDR_LEN) = p := by
  apply List.ext_getElem
  · simp [memcpy_addr, hp]
  · intro n h1 h2
    have h3 : n < ADDR_LEN := by simpa [memcpy_addr] using h1
    have h4 : ¬ (1 + 2 * ADDR_LEN + n < ADDR_LEN) := by omega
    have h5 : 1 + 2 * ADDR_LEN + n < 1 + 3 * ADDR_LEN := by omega
    simp [memcpy_addr, report, h4, h5, List.getD_eq_getElem?_getD, h2]

theorem set_u16_0_global (a : Address) (h : global_scope a) : set_u16_0 a = a := by
  obtain ⟨_, h2⟩ := h
  unfold set_u16_0
  have := List.take_append_drop 2 a
  rw [h2] at this
  simpa using this

theorem src_ip_report (e p : Address) (he : global_scope e) : src_ip (report e p) = e := by
  unfold src_ip
  rw [memcpy_report_src e p he.1, set_u16_0_global e he]

theorem parent_ip_report (e p : Address) (hp : global_scope p) :
    parent_ip (report e p) = p := by
  unfold parent_ip
  rw [memcpy_report_parent e p hp.1, set_u16_0_global p hp]

/-- C10: the end-to-end scenario fails at two configurations. With a routing
table of exactly three slots the cursor wraps after the second probe, the
third tick probes aaaa::2 again and aaaa::4 is never registered. With
`NETWORK_NODES = 4` the three probes go out but `add_node` refuses aaaa::4.
With `NETWORK_NODES = 5` and four routing slots the scenario ends as the
claim describes. -/
theorem scenario_last_entry_not_registered :
    (probes env_routes3 (mapper_init env_routes3) scenario).map Probe.dest =
      [gaddr 2, gaddr 3, gaddr 2] ∧
    find_node (run env_routes3 (mapper_init env_routes3) scenario) (gaddr 4) = none ∧
    (probes env_nodes4 (mapper_init env_nodes4) scenario).map Probe.dest =
      [gaddr 2, gaddr 3, gaddr 4] ∧
    find_node (run env_nodes4 (mapper_init env_nodes4) scenario) (gaddr 4) = none ∧
    (probes env_nodes5 (mapper_init env_nodes5) scenario).map Probe.dest =
      [gaddr 2, gaddr 3, gaddr 4] ∧
    (run env_nodes5 (mapper_init env_nodes5) scenario).network =
      [{ id := gaddr 1, parent := none, children := [1] },
       { id := gaddr 2, parent := some 0, children := [2] },
       { id := gaddr 3, parent := some 1, children := [] },
       { id := gaddr 4, parent := none, children := [] }] ∧
    print_graph (run env_nodes5 (mapper_init env_nodes5) scenario) =
      [Line.addr 0 (gaddr 1), Line.addr 2 (gaddr 2), Line.addr 4 (gaddr 3)] := by
  decide

/-! ## The end-to-end scenario with one spare slot in both tables -/

theorem skip_unused_used (env : Env) (fuel wh : Nat)
    (hu : (env.uip_ds6_routing_table wh).isused = true) : skip_unused env fuel wh = wh := by
  cases fuel with
  | zero => rfl
  | succ n => simp [skip_unused, hu]

theorem select_network_working_host (env : Env) (s : State) :
    (select_network env s).working_host = s.working_host := by
  unfold select_network
  split <;> rfl

theorem add_node_fresh (N : Nat) (s : State) (a : Address) (hcap : node_index s + 1 < N)
    (hf : find_node s a = none) :
    (add_node N s a).2.network = s.network ++ [{ id := a, parent := none, children := [] }] := by
  have hc : ¬ ((node_index s : Int) ≥ (N : Int) - 1) := by omega
  unfold add_node
  rw [if_neg hc, hf]

theorem map_network_fresh (env : Env) (s : State) (a : Address)
    (hu : (env.uip_ds6_routing_table s.working_host).isused = true)
    (ha : (env.uip_ds6_routing_table s.working_host).ipaddr = a)
    (hcap : node_index s + 1 < env.NETWORK_NODES) (hf : find_node s a = none) :
    (map_network env s).1.network = s.network ++ [{ id := a, parent := none, children := [] }] ∧
    (map_network env s).2.probe.map Probe.dest = some a ∧
    (s.working_host + 2 < env.UIP_DS6_ROUTE_NB →
      (map_network env s).1.working_host = s.working_host + 1) := by
  have hs : { s with working_host := s.working_host } = s := by cases s; rfl
  have hn := add_node_fresh env.NETWORK_NODES s a hcap hf
  unfold map_network
  simp only [skip_unused_used env _ _ hu, hu, hs, ha]
  by_cases hw : ((s.working_host + 1 : Nat) : Int) ≥ (env.UIP_DS6_ROUTE_NB : Int) - 1
  · simp only [hw, if_true]
    refine ⟨hn, by simp, ?_⟩
    intro h; omega
  · simp only [hw, if_false]
    exact ⟨hn, by simp, fun _ => rfl⟩

theorem slow_tick_fresh (env : Env) (s : State) (a : Address)
    (hu : (env.uip_ds6_routing_table s.working_host).isused = true)
    (ha : (env.uip_ds6_routing_table s.working_host).ipaddr = a)
    (hcap : node_index s + 1 < env.NETWORK_NODES) (hf : find_node s a = none) :
    (slow_tick env s).1.network = s.network ++ [{ id := a, parent := none, children := [] }] ∧
    (slow_tick env s).2.probe.map Probe.dest = some a ∧
    (s.working_host + 2 < env.UIP_DS6_ROUTE_NB →
      (slow_tick env s).1.working_host = s.working_host + 1) := by
  unfold slow_tick
  have hnet : (if s.working_host = 0 then select_network env s else s).network = s.network := by
    split
    · exact select_network_network env s
    · rfl
  have hwh : (if s.working_host = 0 then select_network env s else s).working_host =
      s.working_host := by
    split
    · exact select_network_working_host env s
    · rfl
  generalize (if s.working_host = 0 then select_network env s else s) = s1 at hnet hwh ⊢
  have := map_network_fresh env s1 a (by rw [hwh]; exact hu) (by rw [hwh]; exact ha)
    (by simpa [node_index, hnet] using hcap) (by unfold find_node at hf ⊢; rw [hnet]; exact hf)
  rw [hnet, hwh] at this
  exact this

theorem probe_dest_toList (o : Option Probe) (a : Address)
    (h : o.map Probe.dest = some a) : o.toList.map Probe.dest = [a] := by
  cases o with
  | none => cases h
  | some pr => simpa using h

/-- The end-to-end scenario for arbitrary pairwise distinct global-scope
addresses, when `network` has at least five slots and the routing table at
least four: the probes go to B, C, D, and the final graph is R -> B -> C with D
registered, parentless and not printed. -/
theorem scenario_with_spare_slots (env : Env) (R B C D : Address)
    (hR : global_scope R) (hB : global_scope B) (hC : global_scope C)
    (hRB : R ≠ B) (hRC : R ≠ C) (hRD : R ≠ D) (hBC : B ≠ C) (hBD : B ≠ D) (hCD : C ≠ D)
    (hN : 5 ≤ env.NETWORK_NODES) (hM : 4 ≤ env.UIP_DS6_ROUTE_NB)
    (hroot : env.global_addr = R)
    (h0 : env.uip_ds6_routing_table 0 = { isused := true, ipaddr := B })
    (h1 : env.uip_ds6_routing_table 1 = { isused := true, ipaddr := C })
    (h2 : env.uip_ds6_routing_table 2 = { isused := true, ipaddr := D }) :
    (probes env (mapper_init env)
      [slow, slow, slow, Event.tcpip (report B R), Event.tcpip (report C B)]).map Probe.dest =
      [B, C, D] ∧
    (run env (mapper_init env)
      [slow, slow, slow, Event.tcpip (report B R), Event.tcpip (report C B)]).network =
      [{ id := R, parent := none, children := [1] },
       { id := B, parent := some 0, children := [2] },
       { id := C, parent := some 1, children := [] },
       { id := D, parent := none, children := [] }] ∧
    print_graph (run env (mapper_init env)
      [slow, slow, slow, Event.tcpip (report B R), Event.tcpip (report C B)]) =
      [Line.addr 0 R, Line.addr 2 B, Line.addr 4 C] := by
  have hBR : B ≠ R := Ne.symm hRB
  have hCR : C ≠ R := Ne.symm hRC
  have hCB : C ≠ B := Ne.symm hBC
  have hDR : D ≠ R := Ne.symm hRD
  have hDB : D ≠ B := Ne.symm hBD
  have hDC : D ≠ C := Ne.symm hCD
  -- first tick
  have n0 : (mapper_init env).network = [{ id := R, parent := none, children := [] }] := by
    simp [mapper_init, hroot]
  have w0 : (mapper_init env).working_host = 0 := rfl
  obtain ⟨n1, p1, w1⟩ := slow_tick_fresh env (mapper_init env) B (by rw [w0, h0]) (by rw [w0, h0])
    (by simp only [node_index, n0, List.length_singleton]; omega)
    (by unfold find_node; rw [n0]; simp [find_node_from, uip_ipaddr_cmp, hBR])
  rw [n0] at n1
  rw [w0] at w1
  have w1 := w1 (by omega)
  -- second tick
  obtain ⟨n2, p2, w2⟩ := slow_tick_fresh env (slow_tick env (mapper_init env)).1 C (by rw [w1, h1]) (by rw [w1, h1])
    (by simp only [node_index, n1, List.length_cons, List.length_nil, List.length_append]; omega)
    (by unfold find_node; rw [n1]; simp [find_node_from, uip_ipaddr_cmp, hCR, hCB])
  rw [n1] at n2
  rw [w1] at w2
  have w2 := w2 (by omega)
  -- third tick
  obtain ⟨n3, p3, _⟩ := slow_tick_fresh env (slow_tick env (slow_tick env (mapper_init env)).1).1 D (by rw [w2, h2])
    (by rw [w2, h2])
    (by simp only [node_index, n2, List.length_cons, List.length_nil, List.length_append]; omega)
    (by unfold find_node; rw [n2]; simp [find_node_from, uip_ipaddr_cmp, hDR, hDB, hDC])
  rw [n2] at n3
  simp only [List.cons_append, List.nil_append] at n3
  simp only [run, probes, mapper_step, slow, List.map_append, List.append_nil,
    probe_dest_toList _ _ p1, probe_dest_toList _ _ p2, probe_dest_toList _ _ p3,
    List.map_nil]
  refine ⟨rfl, ?_⟩
  generalize (slow_tick env (slow_tick env (slow_tick env (mapper_init env)).1).1).1 = s3 at n3 ⊢
  -- the report of B naming R
  have f1 : find_node s3 (src_ip (report B R)) = some 1 := by
    rw [src_ip_report B R hB]; unfold find_node; rw [n3]
    simp [find_node_from, uip_ipaddr_cmp, hBR]
  have f2 : find_node s3 (parent_ip (report B R)) = some 0 := by
    rw [parent_ip_report B R hR]; unfold find_node; rw [n3]
    simp [find_node_from, uip_ipaddr_cmp]
  have l1 : child_listed s3.network 0 1 = false := by
    rw [n3]; simp [child_listed, nodeAt]
  have n4 : (tcpip_handler s3 (report B R)).network =
      [{ id := R, parent := none, children := [1] },
       { id := B, parent := some 0, children := [] },
       { id := C, parent := none, children := [] },
       { id := D, parent := none, children := [] }] := by
    rw [tcpip_handler_attach s3 (report B R) 1 0 rfl f1 f2 l1]
    simp [n3, push_child, set_parent, nodeAt]
  generalize tcpip_handler s3 (report B R) = s4 at n4 ⊢
  -- the report of C naming B
  have g1 : find_node s4 (src_ip (report C B)) = some 2 := by
    rw [src_ip_report C B hC]; unfold find_node; rw [n4]
    simp [find_node_from, uip_ipaddr_cmp, hCR, hCB]
  have g2 : find_node s4 (parent_ip (report C B)) = some 1 := by
    rw [parent_ip_report C B hB]; unfold find_node; rw [n4]
    simp [find_node_from, uip_ipaddr_cmp, hBR]
  have l2 : child_listed s4.network 1 2 = false := by
    rw [n4]; simp [child_listed, nodeAt]
  have n5 : (tcpip_handler s4 (report C B)).network =
      [{ id := R, parent := none, children := [1] },
       { id := B, parent := some 0, children := [2] },
       { id := C, parent := some 1, children := [] },
       { id := D, parent := none, children := [] }] := by
    rw [tcpip_handler_attach s4 (report C B) 2 1 rfl g1 g2 l2]
    simp [n4, push_child, set_parent, nodeAt]
  refine ⟨n5, ?_⟩
  unfold print_graph
  rw [n5]
  simp [print_subtree, print_subtree_aux, nodeAt]

/-! ## The sweep scheduler -/

/-- C11: a two-slot routing table with both entries in use (K = 2) and
`working_host = 0`: two slow ticks emit two probes, both to the entry at
index 0; the entry at index 1 is never addressed, because the cursor is reset
once it reaches `UIP_DS6_ROUTE_NB - 1`. -/
theorem sweep_misses_last_entry :
    (env_routes2.uip_ds6_routing_table 0).isused = true ∧
    (env_routes2.uip_ds6_routing_table 1).isused = true ∧
    (mapper_init env_routes2).working_host = 0 ∧
    (probes env_routes2 (mapper_init env_routes2) [slow, slow]).map Probe.dest =
      [gaddr 2, gaddr 2] ∧
    (mapper_step env_routes2 (mapper_init env_routes2) slow).1.working_host = 0 ∧
    gaddr 3 ∉ (probes env_routes2 (mapper_init env_routes2)
      [slow, slow, slow, slow]).map Probe.dest := by
  decide

/-- C12: in the startup state of `env8` no instance is in use and
`working_host = 0`; the slow tick still emits a probe, to aaaa::2, carrying
the zero context, and leaves the context as it was. -/
theorem probe_without_network :
    (mapper_init env8).working_host = 0 ∧
    (∀ i, i < env8.RPL_MAX_INSTANCES → (env8.instance_table i).used = false) ∧
    (mapper_step env8 (mapper_init env8) slow).2.probe =
      some { dest := gaddr 2, data := 0 :: List.replicate ADDR_LEN 0 } ∧
    (mapper_step env8 (mapper_init env8) slow).1.current_rpl_instance_id =
      (mapper_init env8).current_rpl_instance_id ∧
    (mapper_step env8 (mapper_init env8) slow).1.current_dag_id =
      (mapper_init env8).current_dag_id := by
  decide

/-- C13: with the pairs (0, 0) and (0, 1) both in use and every slow tick
starting a fresh pass, three slow ticks all select the pair (0, 0): every
probe carries the DAG id aaaa::10, the cursor `mapper_dag` stays 0, and the
pair (0, 1) with DAG id aaaa::11 never becomes the active context. -/
theorem round_robin_stuck :
    ((env_two_dags.instance_table 0).dag_table 0).used = true ∧
    ((env_two_dags.instance_table 0).dag_table 1).used = true ∧
    (run env_two_dags (mapper_init env_two_dags) [slow]).working_host = 0 ∧
    (run env_two_dags (mapper_init env_two_dags) [slow, slow]).working_host = 0 ∧
    (probes env_two_dags (mapper_init env_two_dags) [slow, slow, slow]).map Probe.data =
      [30 :: gaddr 10, 30 :: gaddr 10, 30 :: gaddr 10] ∧
    (run env_two_dags (mapper_init env_two_dags) [slow]).current_dag_id = gaddr 10 ∧
    (run env_two_dags (mapper_init env_two_dags) [slow, slow]).current_dag_id = gaddr 10 ∧
    (run env_two_dags (mapper_init env_two_dags) [slow, slow, slow]).current_dag_id = gaddr 10 ∧
    (run env_two_dags (mapper_init env_two_dags) [slow, slow]).mapper_dag = 0 := by
  decide

/-- C17: a four-slot routing table whose entries 0 and 1 are in use. The third
slow tick skips to index 4, one past the table, reads
`uip_ds6_routing_table[4]`, and leaves `working_host = 5`; the cursor is not
reset and the fourth tick reads index 5 and leaves 6. -/
theorem cursor_leaves_table :
    env8.UIP_DS6_ROUTE_NB = 4 ∧
    (run env8 (mapper_init env8) [slow, slow]).working_host = 2 ∧
    skip_unused env8 (env8.UIP_DS6_ROUTE_NB - 2) 2 = 4 ∧
    (run env8 (mapper_init env8) [slow, slow, slow]).working_host = 5 ∧
    skip_unused env8 (env8.UIP_DS6_ROUTE_NB - 5) 5 = 5 ∧
    (run env8 (mapper_init env8) [slow, slow, slow, slow]).working_host = 6 ∧
    (probes env8 (mapper_init env8) [slow, slow, slow, slow, slow, slow]).map Probe.dest =
      [gaddr 2, gaddr 3] := by
  decide

theorem add_node_fields (N : Nat) (s : State) (ip : Address) :
    (add_node N s ip).2.working_host = s.working_host ∧
    (add_node N s ip).2.current_rpl_instance_id = s.current_rpl_instance_id ∧
    (add_node N s ip).2.current_dag_id = s.current_dag_id ∧
    (add_node N s ip).2.mapper_instance = s.mapper_instance ∧
    (add_node N s ip).2.mapper_dag = s.mapper_dag := by
  rcases add_node_network N s ip with h | ⟨_, h⟩ <;> rw [h] <;> simp

theorem map_network_probe_eq (env : Env) (s : State) :
    (map_network env s).2.probe =
      if (env.uip_ds6_routing_table
          (skip_unused env (env.UIP_DS6_ROUTE_NB - s.working_host) s.working_host)).isused = false
      then none
      else some
        { dest := (env.uip_ds6_routing_table
            (skip_unused env (env.UIP_DS6_ROUTE_NB - s.working_host) s.working_host)).ipaddr
          data := s.current_rpl_instance_id :: s.current_dag_id } := by
  unfold map_network
  simp only
  generalize skip_unused env (env.UIP_DS6_ROUTE_NB - s.working_host) s.working_host = wh
  by_cases hu : (env.uip_ds6_routing_table wh).isused = false
  · rw [if_pos hu, if_pos hu]
  · rw [if_neg hu, if_neg hu]
    split <;> rfl

theorem map_network_context (env : Env) (s : State) :
    (map_network env s).1.current_rpl_instance_id = s.current_rpl_instance_id ∧
    (map_network env s).1.current_dag_id = s.current_dag_id ∧
    (map_network env s).1.mapper_instance = s.mapper_instance ∧
    (map_network env s).1.mapper_dag = s.mapper_dag := by
  unfold map_network
  simp only
  generalize skip_unused env (env.UIP_DS6_ROUTE_NB - s.working_host) s.working_host = wh
  have hf := add_node_fields env.NETWORK_NODES { s with working_host := wh }
    (env.uip_ds6_routing_table wh).ipaddr
  split
  · simp
  · split <;> simp [hf.2.1, hf.2.2.1, hf.2.2.2.1, hf.2.2.2.2]

theorem mapper_step_probe_length (env : Env) (s : State) (ev : Event) :
    (mapper_step env s ev).2.probe.toList.length ≤ 1 := by
  cases (mapper_step env s ev).2.probe <;> simp

/-- C14 (counterexample): after the slow timer's expiry the first probe goes
out and `etimer_reset(&map_timer)` is not called; a fast-timer expiry handled
while `etimer_expired(&map_timer)` still holds emits the second probe and
moves `working_host` from 1 to 2. Two probes, one slow-timer expiry. -/
theorem fast_expiry_emits_probe :
    (mapper_step env8 (mapper_init env8)
      (to_event (Wakeup.slow_timer, true))).2.map_timer_reset = false ∧
    (run env8 (mapper_init env8) [to_event (Wakeup.slow_timer, true)]).working_host = 1 ∧
    (mapper_step env8 (run env8 (mapper_init env8) [to_event (Wakeup.slow_timer, true)])
      (to_event (Wakeup.fast_timer, true))).2.probe =
      some { dest := gaddr 3, data := 0 :: List.replicate ADDR_LEN 0 } ∧
    (mapper_step env8 (run env8 (mapper_init env8) [to_event (Wakeup.slow_timer, true)])
      (to_event (Wakeup.fast_timer, true))).1.working_host = 2 ∧
    (probes env8 (mapper_init env8)
      ([(Wakeup.slow_timer, true), (Wakeup.fast_timer, true)].map to_event)).length = 2 ∧
    ([(Wakeup.slow_timer, true), (Wakeup.fast_timer, true)].filter is_slow_expiry).length = 1 := by
  decide

/-- C14 (amended): over every sequence of datagram arrivals, fast-timer
expiries and slow-timer expiries, the number of probes emitted never exceeds
the number of timer expiries (fast or slow) handled while
`etimer_expired(&map_timer)` holds; a fast-timer expiry handled while it does
not hold emits no probe and changes nothing; a datagram arrival emits no probe
and changes no cursor; every event emits at most one probe. -/
theorem probes_bounded_by_branch (env : Env) (s : State) (ws : List (Wakeup × Bool)) :
    (probes env s (ws.map to_event)).length ≤ (ws.filter takes_branch).length ∧
    (∀ s1, mapper_step env s1 (to_event (Wakeup.fast_timer, false)) =
      (s1, { probe := none, map_timer_reset := false })) ∧
    (∀ s1 d b, (mapper_step env s1 (to_event (Wakeup.datagram d, b))).2.probe = none ∧
      (mapper_step env s1 (to_event (Wakeup.datagram d, b))).1.working_host = s1.working_host ∧
      (mapper_step env s1 (to_event (Wakeup.datagram d, b))).1.mapper_instance =
        s1.mapper_instance ∧
      (mapper_step env s1 (to_event (Wakeup.datagram d, b))).1.mapper_dag = s1.mapper_dag) ∧
    (∀ s1 w, (mapper_step env s1 (to_event w)).2.probe.toList.length ≤ 1) := by
  refine ⟨?_, fun s1 => rfl, fun s1 d b => ?_, fun s1 w => mapper_step_probe_length env s1 _⟩
  · induction ws generalizing s with
    | nil => simp [probes]
    | cons w ws ih =>
      have hrest := ih (mapper_step env s (to_event w)).1
      have hone := mapper_step_probe_length env s (to_event w)
      simp only [List.map_cons, probes, List.length_append]
      obtain ⟨k, b⟩ := w
      cases k with
      | datagram d =>
        simp only [to_event, mapper_step, Option.toList, List.length_nil] at hrest ⊢
        simp only [List.filter_cons, takes_branch]
        simpa using hrest
      | fast_timer =>
        cases b with
        | false =>
          simp only [to_event, mapper_step, Option.toList, List.length_nil] at hrest ⊢
          simp only [List.filter_cons, takes_branch]
          simpa using hrest
        | true =>
          simp only [to_event] at hrest hone ⊢
          simp only [List.filter_cons, takes_branch, if_true, List.length_cons]
          omega
      | slow_timer =>
        simp only [to_event] at hrest hone ⊢
        simp only [List.filter_cons, takes_branch, if_true, List.length_cons]
        omega
  · have hc := tcpip_handler_cursor s1 d
    exact ⟨rfl, hc.1, hc.2.2.2.1, hc.2.2.2.2⟩

theorem dag_loop_found (env : Env) (inst fuel d d1 : Nat)
    (h : dag_loop env inst fuel d = (true, d1)) :
    d1 < env.RPL_MAX_DAG_PER_INSTANCE ∧ ((env.instance_table inst).dag_table d1).used = true := by
  induction fuel generalizing d with
  | zero => simp [dag_loop] at h
  | succ n ih =>
    simp only [dag_loop] at h
    by_cases hd : d < env.RPL_MAX_DAG_PER_INSTANCE
    · rw [if_pos hd] at h
      by_cases hu : ((env.instance_table inst).dag_table d).used = false
      · rw [if_pos hu] at h
        exact ih (d + 1) h
      · rw [if_neg hu] at h
        simp only [Prod.mk.injEq, true_and] at h
        subst h
        exact ⟨hd, by simpa using hu⟩
    · rw [if_neg hd] at h
      simp at h

theorem instance_loop_found (env : Env) (fuel i d i1 d1 : Nat)
    (h : instance_loop env fuel i d = (true, i1, d1)) :
    i1 < env.RPL_MAX_INSTANCES ∧ (env.instance_table i1).used = true ∧
    d1 < env.RPL_MAX_DAG_PER_INSTANCE ∧ ((env.instance_table i1).dag_table d1).used = true := by
  induction fuel generalizing i d with
  | zero => simp [instance_loop] at h
  | succ n ih =>
    simp only [instance_loop] at h
    by_cases hi : i < env.RPL_MAX_INSTANCES
    · rw [if_pos hi] at h
      by_cases hu : (env.instance_table i).used = false
      · rw [if_pos hu] at h
        exact ih (i + 1) d h
      · rw [if_neg hu] at h
        cases hdl : dag_loop env i (env.RPL_MAX_DAG_PER_INSTANCE - d) d with
        | mk b d2 =>
          rw [hdl] at h
          cases b with
          | true =>
            simp only [Prod.mk.injEq, true_and] at h
            obtain ⟨h1, h2⟩ := h
            subst h1 h2
            obtain ⟨hd1, hd2⟩ := dag_loop_found env i _ d d2 hdl
            exact ⟨hi, by simpa using hu, hd1, hd2⟩
          | false => exact ih (i + 1) _ h
    · rw [if_neg hi] at h
      simp at h

theorem select_network_found (env : Env) (s : State) (i d : Nat)
    (h : instance_loop env (env.RPL_MAX_INSTANCES - s.mapper_instance)
      s.mapper_instance s.mapper_dag = (true, i, d)) :
    select_network env s =
      { s with
        mapper_instance := i
        mapper_dag := d
        current_rpl_instance_id := (env.instance_table i).instance_id
        current_dag_id := ((env.instance_table i).dag_table d).dag_id } := by
  unfold select_network
  rw [h]

theorem select_network_not_found (env : Env) (s : State) (i d : Nat)
    (h : instance_loop env (env.RPL_MAX_INSTANCES - s.mapper_instance)
      s.mapper_instance s.mapper_dag = (false, i, d)) :
    (select_network env s).current_rpl_instance_id = s.current_rpl_instance_id ∧
    (select_network env s).current_dag_id = s.current_dag_id := by
  unfold select_network
  rw [h]
  exact ⟨rfl, rfl⟩

theorem slow_tick_without_network (env : Env) (s : State) (h0 : s.working_host = 0)
    (hnone : ∀ i d, i < env.RPL_MAX_INSTANCES → d < env.RPL_MAX_DAG_PER_INSTANCE →
      (env.instance_table i).used = true → ((env.instance_table i).dag_table d).used = false) :
    (slow_tick env s).1.current_rpl_instance_id = s.current_rpl_instance_id ∧
    (slow_tick env s).1.current_dag_id = s.current_dag_id ∧
    (slow_tick env s).2.probe =
      if (env.uip_ds6_routing_table (skip_unused env env.UIP_DS6_ROUTE_NB 0)).isused = false
      then none
      else some
        { dest := (env.uip_ds6_routing_table (skip_unused env env.UIP_DS6_ROUTE_NB 0)).ipaddr
          data := s.current_rpl_instance_id :: s.current_dag_id } := by
  unfold slow_tick
  rw [if_pos h0]
  have hctx : (select_network env s).current_rpl_instance_id = s.current_rpl_instance_id ∧
      (select_network env s).current_dag_id = s.current_dag_id := by
    cases hl : instance_loop env (env.RPL_MAX_INSTANCES - s.mapper_instance)
        s.mapper_instance s.mapper_dag with
    | mk b r =>
      obtain ⟨i, d⟩ := r
      cases b with
      | false => exact select_network_not_found env s i d hl
      | true =>
        obtain ⟨h1, h2, h3, h4⟩ := instance_loop_found env _ _ _ i d hl
        rw [hnone i d h1 h3 h2] at h4
        cases h4
  have hwh := select_network_working_host env s
  have hm := map_network_context env (select_network env s)
  refine ⟨by rw [hm.1, hctx.1], by rw [hm.2.1, hctx.2], ?_⟩
  rw [map_network_probe_eq, hwh, h0, hctx.1, hctx.2]
  rfl

theorem dag_loop_at_used (env : Env) (inst d : Nat) (hd : d < env.RPL_MAX_DAG_PER_INSTANCE)
    (hu : ((env.instance_table inst).dag_table d).used = true) :
    dag_loop env inst (env.RPL_MAX_DAG_PER_INSTANCE - d) d = (true, d) := by
  obtain ⟨n, hn⟩ : ∃ n, env.RPL_MAX_DAG_PER_INSTANCE - d = n + 1 :=
    ⟨env.RPL_MAX_DAG_PER_INSTANCE - d - 1, by omega⟩
  rw [hn]
  simp [dag_loop, hd, hu]

theorem instance_loop_at_used (env : Env) (i d : Nat) (hi : i < env.RPL_MAX_INSTANCES)
    (hiu : (env.instance_table i).used = true) (hd : d < env.RPL_MAX_DAG_PER_INSTANCE)
    (hu : ((env.instance_table i).dag_table d).used = true) :
    instance_loop env (env.RPL_MAX_INSTANCES - i) i d = (true, i, d) := by
  obtain ⟨n, hn⟩ : ∃ n, env.RPL_MAX_INSTANCES - i = n + 1 :=
    ⟨env.RPL_MAX_INSTANCES - i - 1, by omega⟩
  rw [hn]
  simp [instance_loop, hi, hiu, dag_loop_at_used env i d hd hu]

theorem select_network_repeat (env : Env) (s : State) (i d : Nat)
    (h : instance_loop env (env.RPL_MAX_INSTANCES - s.mapper_instance)
      s.mapper_instance s.mapper_dag = (true, i, d)) :
    select_network env (select_network env s) = select_network env s := by
  obtain ⟨h1, h2, h3, h4⟩ := instance_loop_found env _ _ _ i d h
  rw [select_network_found env s i d h]
  rw [select_network_found env _ i d (instance_loop_at_used env i d h1 h2 h3 h4)]

/-! ## The printer -/

theorem print_subtree_eq (net : List Node) (node depth : Nat) :
    print_subtree net node depth =
      if depth > 8 then [Line.dots (depth * 2)]
      else Line.addr (depth * 2) (nodeAt net node).id ::
        (nodeAt net node).children.flatMap (fun c => print_subtree net c (depth + 1)) := by
  have hl : print_subtree net node depth =
      print_subtree_aux net (9 - depth + 1) node depth := rfl
  rw [hl]
  simp only [print_subtree_aux]
  by_cases hd : depth > 8
  · rw [if_pos hd, if_pos hd]
  · rw [if_neg hd, if_neg hd]
    have : 9 - depth = 9 - (depth + 1) + 1 := by omega
    rw [this]
    rfl

theorem print_subtree_fuel (net : List Node) (fuel node depth : Nat)
    (h : 9 - depth + 1 ≤ fuel) :
    print_subtree_aux net fuel node depth = print_subtree net node depth := by
  induction fuel generalizing node depth with
  | zero => omega
  | succ n ih =>
    rw [print_subtree_eq]
    simp only [print_subtree_aux]
    by_cases hd : depth > 8
    · rw [if_pos hd, if_pos hd]
    · rw [if_neg hd, if_neg hd]
      congr 1
      congr 1
      funext c
      exact ih c (depth + 1) (by omega)

theorem print_subtree_lines (net : List Node) (k : Nat) :
    ∀ depth node, 9 - depth ≤ k → depth ≤ 9 → ∀ line ∈ print_subtree net node depth,
      (∃ j n, depth ≤ j ∧ j ≤ 8 ∧ line = Line.addr (j * 2) (nodeAt net n).id) ∨
      line = Line.dots 18 := by
  induction k with
  | zero =>
    intro depth node h1 h2 line hl
    have hd : depth = 9 := by omega
    subst hd
    rw [print_subtree_eq] at hl
    simp only [gt_iff_lt, Nat.lt_add_one, if_true, List.mem_singleton] at hl
    right; exact hl
  | succ k ih =>
    intro depth node h1 h2 line hl
    by_cases hd : depth > 8
    · exact ih depth node (by omega) h2 line hl
    · rw [print_subtree_eq, if_neg hd] at hl
      rcases List.mem_cons.1 hl with h | h
      · left; exact ⟨depth, node, le_refl _, by omega, h⟩
      · rw [List.mem_flatMap] at h
        obtain ⟨c, _, hc⟩ := h
        rcases ih (depth + 1) c (by omega) (by omega) line hc with ⟨j, n, hj1, hj2, hj3⟩ | hdots
        · left; exact ⟨j, n, by omega, hj2, hj3⟩
        · right; exact hdots

theorem print_subtree_dots (net : List Node) (k : Nat) :
    ∀ depth node path, 9 - depth ≤ k → depth ≤ 9 → List.Chain (is_child net) node path →
      9 ≤ depth + path.length → Line.dots 18 ∈ print_subtree net node depth := by
  induction k with
  | zero =>
    intro depth node path h1 h2 _ _
    have hd : depth = 9 := by omega
    subst hd
    rw [print_subtree_eq]
    simp
  | succ k ih =>
    intro depth node path h1 h2 hc hlen
    by_cases hd : depth > 8
    · exact ih depth node path (by omega) h2 hc hlen
    · rw [print_subtree_eq, if_neg hd]
      cases path with
      | nil => simp at hlen; omega
      | cons c rest =>
        rw [List.chain_cons] at hc
        apply List.mem_cons_of_mem
        rw [List.mem_flatMap]
        refine ⟨c, hc.1, ih (depth + 1) c rest (by omega) (by omega) hc.2 ?_⟩
        simp only [List.length_cons] at hlen
        omega

/-- C16: for every graph, cyclic or not, `print_subtree` is a total function
that satisfies the recursion of the C code (whatever extra nesting budget it
is given): beyond depth 8 it prints the truncation marker and returns,
otherwise it prints the node at indentation `2 * depth` and then its children's
subtrees in order (pre-order). Started at the root with depth 0 it prints node
addresses at depths 0 to 8 only, every other line being the marker at depth 9,
and it prints the marker whenever a chain of nine child steps leaves the
root. -/
theorem print_subtree_bounded (net : List Node) :
    (∀ node depth, print_subtree net node depth =
      if depth > 8 then [Line.dots (depth * 2)]
      else Line.addr (depth * 2) (nodeAt net node).id ::
        (nodeAt net node).children.flatMap (fun c => print_subtree net c (depth + 1))) ∧
    (∀ fuel node depth, 9 - depth + 1 ≤ fuel →
      print_subtree_aux net fuel node depth = print_subtree net node depth) ∧
    (∀ line ∈ print_subtree net 0 0,
      (∃ j n, j ≤ 8 ∧ line = Line.addr (j * 2) (nodeAt net n).id) ∨ line = Line.dots 18) ∧
    (∀ path, List.Chain (is_child net) 0 path → 9 ≤ path.length →
      Line.dots 18 ∈ print_subtree net 0 0) := by
  refine ⟨print_subtree_eq net, print_subtree_fuel net, ?_, ?_⟩
  · intro line hl
    rcases print_subtree_lines net 9 0 0 (by omega) (by omega) line hl with
      ⟨j, n, _, h2, h3⟩ | h
    · left; exact ⟨j, n, h2, h3⟩
    · right; exact h
  · intro path hc hlen
    exact print_subtree_dots net 9 0 0 path (by omega) (by omega) hc (by omega)

/-- C16 (evaluation on a cycle): for the root that is its own child the
printer stops after nine address lines and one marker. -/
theorem print_subtree_selfloop :
    print_subtree net_selfloop 0 0 =
      [Line.addr 0 (gaddr 1), Line.addr 2 (gaddr 1), Line.addr 4 (gaddr 1),
       Line.addr 6 (gaddr 1), Line.addr 8 (gaddr 1), Line.addr 10 (gaddr 1),
       Line.addr 12 (gaddr 1), Line.addr 14 (gaddr 1), Line.addr 16 (gaddr 1),
       Line.dots 18] := by
  decide

/-- C16 (witness): the self-loop graph has a chain of nine child steps from the
root, and the marker is printed. -/
theorem print_subtree_bounded_witness :
    List.Chain (is_child net_selfloop) 0 (List.replicate 9 0) ∧
    Line.dots 18 ∈ print_subtree net_selfloop 0 0 :=
  ⟨by simp [List.replicate, is_child, net_selfloop, nodeAt],
    (print_subtree_bounded net_selfloop).2.2.2 (List.replicate 9 0)
      (by simp [List.replicate, is_child, net_selfloop, nodeAt]) (by simp)⟩

/-! ## Report decoding -/

theorem set_u16_0_memcpy (a : Nat → Nat) (off : Nat) :
    set_u16_0 (memcpy_addr a off) =
      0xaa :: 0xaa :: (List.range (ADDR_LEN - 2)).map (fun i => a (off + 2 + i)) := by
  rfl

theorem set_u16_0_memcpy_congr (a b : Nat → Nat) (off : Nat)
    (h : ∀ i, off + 2 ≤ i → i < off + ADDR_LEN → a i = b i) :
    set_u16_0 (memcpy_addr a off) = set_u16_0 (memcpy_addr b off) := by
  rw [set_u16_0_memcpy, set_u16_0_memcpy]
  congr 2
  apply List.map_congr_left
  intro i hi
  rw [List.mem_range] at hi
  exact h _ (by omega) (by simp only [ADDR_LEN] at hi ⊢; omega)

/-- C18: the source address is decoded from the bytes at offset 0 and the
parent address from the bytes at offset `1 + 2 * ADDR_LEN`, the two leading
bytes of each being replaced by 0xaa; for every state, two datagrams (of any
length) that agree on the bytes [2, ADDR_LEN) and
[1 + 2 * ADDR_LEN + 2, 1 + 3 * ADDR_LEN) give the same resulting state. -/
theorem tcpip_handler_address_bytes (s : State) (d1 d2 : Datagram)
    (hn : d1.newdata = d2.newdata)
    (hs : ∀ i, 2 ≤ i → i < ADDR_LEN → d1.appdata i = d2.appdata i)
    (hp : ∀ i, 1 + 2 * ADDR_LEN + 2 ≤ i → i < 1 + 3 * ADDR_LEN →
      d1.appdata i = d2.appdata i) :
    tcpip_handler s d1 = tcpip_handler s d2 ∧
    src_ip d1 = 0xaa :: 0xaa :: (List.range (ADDR_LEN - 2)).map (fun i => d1.appdata (2 + i)) ∧
    parent_ip d1 = 0xaa :: 0xaa ::
      (List.range (ADDR_LEN - 2)).map (fun i => d1.appdata (1 + 2 * ADDR_LEN + 2 + i)) := by
  have h1 : src_ip d1 = src_ip d2 :=
    set_u16_0_memcpy_congr d1.appdata d2.appdata 0
      (fun i hi1 hi2 => hs i (by omega) (by omega))
  have h2 : parent_ip d1 = parent_ip d2 :=
    set_u16_0_memcpy_congr d1.appdata d2.appdata (1 + 2 * ADDR_LEN)
      (fun i hi1 hi2 => hp i (by omega) (by omega))
  refine ⟨?_, ?_, ?_⟩
  · unfold tcpip_handler
    rw [hn, h1, h2]
  · unfold src_ip
    rw [set_u16_0_memcpy]
  · unfold parent_ip
    rw [set_u16_0_memcpy]

/-- C18 (witness): the report of aaaa::3 naming aaaa::1 and a 60-byte datagram
that differs from it in the leading bytes of both addresses, in every gap
byte and behind the parent field. -/
theorem tcpip_handler_address_bytes_witness :
    (report (gaddr 3) (gaddr 1)).newdata = noisy_report.newdata ∧
    (∀ i, 2 ≤ i → i < ADDR_LEN →
      (report (gaddr 3) (gaddr 1)).appdata i = noisy_report.appdata i) ∧
    (∀ i, 1 + 2 * ADDR_LEN + 2 ≤ i → i < 1 + 3 * ADDR_LEN →
      (report (gaddr 3) (gaddr 1)).appdata i = noisy_report.appdata i) ∧
    (report (gaddr 3) (gaddr 1)).appdata 0 ≠ noisy_report.appdata 0 ∧
    (report (gaddr 3) (gaddr 1)).appdata 20 ≠ noisy_report.appdata 20 ∧
    tcpip_handler st4_two (report (gaddr 3) (gaddr 1)) ≠ st4_two ∧
    (tcpip_handler st4_two (report (gaddr 3) (gaddr 1)) = tcpip_handler st4_two noisy_report ∧
    src_ip (report (gaddr 3) (gaddr 1)) = 0xaa :: 0xaa ::
      (List.range (ADDR_LEN - 2)).map (fun i => (report (gaddr 3) (gaddr 1)).appdata (2 + i)) ∧
    parent_ip (report (gaddr 3) (gaddr 1)) = 0xaa :: 0xaa ::
      (List.range (ADDR_LEN - 2)).map
        (fun i => (report (gaddr 3) (gaddr 1)).appdata (1 + 2 * ADDR_LEN + 2 + i))) :=
  ⟨rfl, fun i h1 h2 => by simp [noisy_report, h1, h2],
    fun i h1 h2 => by simp [noisy_report, h1, h2], by decide, by decide, by decide,
    tcpip_handler_address_bytes st4_two (report (gaddr 3) (gaddr 1)) noisy_report rfl
      (fun i h1 h2 => by simp [noisy_report, h1, h2])
      (fun i h1 h2 => by simp [noisy_report, h1, h2])⟩

/-! ## The graph invariant -/

end Mapper
